import Mathlib

/-!
Verification of the LawSpark data-preparation and fine-tuning backend.

This file shallowly embeds the pure computational content of
`app/services/data_preparation_service.py`,
`app/services/fine_tuning_service.py` and
`app/api/v1/endpoints/fine_tuning.py`:

* a backtracking regular-expression engine with Python `re` semantics
  (leftmost match, left-biased alternation, greedy quantifiers, word
  boundaries, `re.sub` scanning the original string) used by the
  redaction pipeline `_anonymize_content` / `_anonymize_names`;
* the complexity classifier `_assess_complexity`;
* the metrics aggregator `calculate_dataset_metrics`;
* the dataset exporter `export_dataset` (filters, NDJSON and CSV encoders);
* the pair synthesizer `_generate_pairs_for_type` / `_extract_sample_clauses`;
* the fine-tuning job simulator `_run_training_process`, its failure
  handlers, the evaluation metrics `_evaluate_model`, and the cancel
  endpoint `cancel_fine_tuning_job`, with record-store writes modelled
  as explicit state-transformer functions on a job record.

Inputs in all settled statements are ASCII, so the ASCII character
classes below coincide with Python's Unicode-aware `\d`, `\s`, `\w`.
Python floats are modelled by `ℚ`; every arithmetic value reached in the
settled statements is exactly representable.
-/

namespace LawSpark

/-! ### Basic string helpers (Python list/str primitives) -/

/-- Is `c` one of Python's `str.split()` / `\s` whitespace characters (ASCII)? -/
def pyIsSpace (c : Char) : Bool :=
  c = ' ' || c = '\t' || c = '\n' || c = '\r' || c = '\x0b' || c = '\x0c'

/-- A word character for Python's `\b` (ASCII fragment of `\w`). -/
def isWordChar (c : Char) : Bool :=
  c.isAlpha || c.isDigit || c = '_'

/-- `isPrefixL n h` : is `n` a prefix of `h`? -/
def isPrefixL : List Char → List Char → Bool
  | [], _ => true
  | _ :: _, [] => false
  | a :: as, b :: bs => a = b && isPrefixL as bs

/-- Does `needle` occur as a contiguous substring of `hay`? -/
def occursIn (needle : List Char) : List Char → Bool
  | [] => isPrefixL needle []
  | c :: t => isPrefixL needle (c :: t) || occursIn needle t

/-- String-level substring test (Python `needle in hay`). -/
def occursInS (needle hay : String) : Bool :=
  occursIn needle.data hay.data

/-- Count of maximal non-whitespace runs; `prevInWord` says whether the
previous character was part of a word.  `pyWordCount` below equals
`len(s.split())`. -/
def wordCountAux : Bool → List Char → Nat
  | _, [] => 0
  | prevInWord, c :: t =>
    let cw := !pyIsSpace c
    (if cw && !prevInWord then 1 else 0) + wordCountAux cw t

/-- `len(s.split())` : number of whitespace-separated words. -/
def pyWordCount (s : String) : Nat :=
  wordCountAux false s.data

/-- Index of the first occurrence of `needle` in `hay`, if any. -/
def findSub (needle : List Char) : List Char → Option Nat
  | [] => if isPrefixL needle [] then some 0 else none
  | c :: t =>
    if isPrefixL needle (c :: t) then some 0
    else (findSub needle t).map (· + 1)

/-- Fuelled worker for splitting on a (non-empty) separator, keeping
empty parts, as Python `s.split(sep)` does. -/
def splitOnSubAux : Nat → List Char → List Char → List (List Char)
  | 0, _, s => [s]
  | f + 1, sep, s =>
    match findSub sep s with
    | none => [s]
    | some i => s.take i :: splitOnSubAux f sep (s.drop (i + sep.length))

/-- Python `s.split(sep)` for a non-empty separator string. -/
def pySplit (sep s : String) : List String :=
  (splitOnSubAux (s.data.length + 1) sep.data s.data).map String.mk

/-- Python `s.strip()`: drop leading and trailing whitespace. -/
def pyStrip (s : String) : String :=
  String.mk (((s.data.dropWhile pyIsSpace).reverse.dropWhile pyIsSpace).reverse)

/-- Python slice `s[:n]`. -/
def takeS (n : Nat) (s : String) : String :=
  String.mk (s.data.take n)

/-! ### A backtracking regex engine with Python `re` semantics

Character classes are embedded as Boolean predicates; alternation is
left-biased; `star` is greedy; `wordB` is the zero-width `\b`
assertion, which needs the character immediately before the current
position, threaded through as `prev`. -/

inductive Regex where
  | eps : Regex
  | cls : (Char → Bool) → Regex
  | wordB : Regex
  | cat : Regex → Regex → Regex
  | alt : Regex → Regex → Regex
  | star : Regex → Regex

/-- `\b` holds where exactly one side of the position is a word character. -/
def atBoundary (prev : Option Char) (s : List Char) : Bool :=
  let a := match prev with | some c => isWordChar c | none => false
  let b := match s with | c :: _ => isWordChar c | [] => false
  a != b

/-- Backtracking matcher in continuation-passing style.  `k` receives
the character preceding the rest of the input and the rest itself; the
first alternative (in Python's priority order) whose continuation
succeeds wins.  The `fuel` bound only forces termination; every
evaluation in this file supplies more fuel than the recursion depth
ever reaches. -/
def matchCont : Nat → Regex → Option Char → List Char →
    (Option Char → List Char → Option (List Char)) → Option (List Char)
  | 0, _, _, _, _ => none
  | Nat.succ _, Regex.eps, prev, s, k => k prev s
  | Nat.succ _, Regex.cls _, _, [], _ => none
  | Nat.succ _, Regex.cls p, _, c :: rest, k =>
    if p c then k (some c) rest else none
  | Nat.succ _, Regex.wordB, prev, s, k =>
    if atBoundary prev s then k prev s else none
  | Nat.succ f, Regex.cat a b, prev, s, k =>
    matchCont f a prev s (fun p2 s2 => matchCont f b p2 s2 k)
  | Nat.succ f, Regex.alt a b, prev, s, k =>
    (matchCont f a prev s k).orElse (fun _ => matchCont f b prev s k)
  | Nat.succ f, Regex.star r, prev, s, k =>
    (matchCont f r prev s (fun p2 s2 =>
        if s2.length < s.length then matchCont f (Regex.star r) p2 s2 k
        else none)).orElse
      (fun _ => k prev s)

/-- Structural size of a regex, used to size the fuel. -/
def regexSize : Regex → Nat
  | Regex.eps => 1
  | Regex.cls _ => 1
  | Regex.wordB => 1
  | Regex.cat a b => regexSize a + regexSize b + 1
  | Regex.alt a b => regexSize a + regexSize b + 1
  | Regex.star r => regexSize r + 1

/-- Try to match `r` at the start of `s` (with `prev` the preceding
character); on success return the unconsumed suffix. -/
def tryMatch (r : Regex) (prev : Option Char) (s : List Char) : Option (List Char) :=
  matchCont ((s.length + 2) * (regexSize r + 2)) r prev s (fun _ rest => some rest)

/-- Fuelled worker for `re.sub`: scan the original string left to
right; at each position try a match; replace a non-empty match and
resume right after it (the boundary context is the last matched
character of the original string, exactly as `re.sub` behaves). -/
def subAux : Nat → Regex → List Char → Option Char → List Char → List Char
  | 0, _, _, _, s => s
  | f + 1, r, repl, prev, s =>
    match tryMatch r prev s with
    | some rest =>
      if rest.length < s.length then
        let matched := s.take (s.length - rest.length)
        let prev2 := match matched.getLast? with | some c => some c | none => prev
        repl ++ subAux f r repl prev2 rest
      else
        match s with
        | [] => repl
        | c :: restS => repl ++ c :: subAux f r repl (some c) restS
    | none =>
      match s with
      | [] => []
      | c :: restS => c :: subAux f r repl (some c) restS

/-- Python `re.sub(pattern, repl, s)` for a literal replacement string. -/
def reSub (r : Regex) (repl : String) (s : String) : String :=
  String.mk (subAux (s.data.length + 1) r repl.data none s.data)

/-! Pattern-building helpers mirroring the concrete syntax used in the
source's patterns. -/

/-- Concatenation of a list of regexes. -/
def rcat (l : List Regex) : Regex :=
  l.foldr Regex.cat Regex.eps

/-- A literal character (case-sensitive). -/
def lit (c : Char) : Regex :=
  Regex.cls (fun x => x = c)

/-- A literal character under `re.IGNORECASE`. -/
def litCI (c : Char) : Regex :=
  Regex.cls (fun x => x.toLower = c.toLower)

/-- A case-sensitive literal string. -/
def strLit (s : String) : Regex :=
  rcat (s.data.map lit)

/-- A literal string under `re.IGNORECASE`. -/
def strCI (s : String) : Regex :=
  rcat (s.data.map litCI)

/-- Left-biased alternation of a list (empty list never matches). -/
def altList (l : List Regex) : Regex :=
  l.foldr Regex.alt (Regex.cls (fun _ => false))

/-- Greedy `r?`. -/
def opt (r : Regex) : Regex :=
  Regex.alt r Regex.eps

/-- Greedy `r+`. -/
def plus (r : Regex) : Regex :=
  Regex.cat r (Regex.star r)

/-- `r{n}` : exactly `n` copies. -/
def repN : Nat → Regex → Regex
  | 0, _ => Regex.eps
  | n + 1, r => Regex.cat r (repN n r)

/-- Greedy `r{0,k}`. -/
def optUpTo : Nat → Regex → Regex
  | 0, _ => Regex.eps
  | k + 1, r => opt (Regex.cat r (optUpTo k r))

/-- Greedy `r{n,m}`. -/
def repRange (n m : Nat) (r : Regex) : Regex :=
  Regex.cat (repN n r) (optUpTo (m - n) r)

/-- Greedy `r{n,}`. -/
def atLeast (n : Nat) (r : Regex) : Regex :=
  Regex.cat (repN n r) (Regex.star r)

/-- `\d` (ASCII). -/
def digit : Regex :=
  Regex.cls Char.isDigit

/-- `\s` (ASCII). -/
def wsC : Regex :=
  Regex.cls pyIsSpace

/-! ### The Redaction Engine's patterns

`DataPreparationService.sensitive_patterns`, each applied with
`re.IGNORECASE` (which only affects the letter literals of the address
suffixes here), followed by the two name patterns of
`_anonymize_names`, applied case-sensitively. -/

/-- `\b\d{3}-\d{2}-\d{4}\b` (SSN). -/
def ssnPat : Regex :=
  rcat [Regex.wordB, repN 3 digit, lit '-', repN 2 digit, lit '-', repN 4 digit, Regex.wordB]

/-- `\b[A-Za-z0-9._%+-]+@[A-Za-z0-9.-]+\.[A-Z|a-z]{2,}\b` (email). -/
def emailPat : Regex :=
  rcat [Regex.wordB,
        plus (Regex.cls (fun c => c.isAlpha || c.isDigit || c = '.' || c = '_' || c = '%' || c = '+' || c = '-')),
        lit '@',
        plus (Regex.cls (fun c => c.isAlpha || c.isDigit || c = '.' || c = '-')),
        lit '.',
        atLeast 2 (Regex.cls (fun c => c.isAlpha || c = '|')),
        Regex.wordB]

/-- `\b\d{3}[-.]?\d{3}[-.]?\d{4}\b` (phone). -/
def phonePat : Regex :=
  rcat [Regex.wordB, repN 3 digit, opt (Regex.cls (fun c => c = '-' || c = '.')),
        repN 3 digit, opt (Regex.cls (fun c => c = '-' || c = '.')),
        repN 4 digit, Regex.wordB]

/-- `\b\d{1,5}\s+[A-Za-z\s]+(?:Street|St|Avenue|Ave|Road|Rd|Boulevard|Blvd|Lane|Ln|Drive|Dr|Court|Ct|Place|Pl)\b` (address). -/
def addressPat : Regex :=
  rcat [Regex.wordB, repRange 1 5 digit, plus wsC,
        plus (Regex.cls (fun c => c.isAlpha || pyIsSpace c)),
        altList (["Street", "St", "Avenue", "Ave", "Road", "Rd", "Boulevard", "Blvd",
                  "Lane", "Ln", "Drive", "Dr", "Court", "Ct", "Place", "Pl"].map strCI),
        Regex.wordB]

/-- `\$[\d,]+(?:\.\d{2})?` (dollar amount). -/
def amountPat : Regex :=
  rcat [lit '$', plus (Regex.cls (fun c => c.isDigit || c = ',')),
        opt (rcat [lit '.', repN 2 digit])]

/-- `sensitive_patterns`: pattern/replacement list, in application order. -/
def sensitivePatterns : List (Regex × String) :=
  [(ssnPat, "[SSN_REDACTED]"),
   (emailPat, "[EMAIL_REDACTED]"),
   (phonePat, "[PHONE_REDACTED]"),
   (addressPat, "[ADDRESS_REDACTED]"),
   (amountPat, "[AMOUNT_REDACTED]")]

/-- `\b[A-Z][a-z]+ [A-Z][a-z]+\b` (First Last). -/
def namePat1 : Regex :=
  rcat [Regex.wordB, Regex.cls Char.isUpper, plus (Regex.cls Char.isLower), lit ' ',
        Regex.cls Char.isUpper, plus (Regex.cls Char.isLower), Regex.wordB]

/-- `\b(?:Mr\.|Mrs\.|Ms\.|Dr\.)\s+[A-Z][a-z]+\b` (Title Name). -/
def namePat2 : Regex :=
  rcat [Regex.wordB,
        altList [strLit "Mr.", strLit "Mrs.", strLit "Ms.", strLit "Dr."],
        plus wsC, Regex.cls Char.isUpper, plus (Regex.cls Char.isLower), Regex.wordB]

/-- `_anonymize_names`: apply the two name patterns in order. -/
def anonymizeNames (text : String) : String :=
  reSub namePat2 "[NAME_REDACTED]" (reSub namePat1 "[NAME_REDACTED]" text)

/-- `_anonymize_content`: fold the five sensitive substitutions over the
content, then anonymize names. -/
def anonymizeContent (content : String) : String :=
  anonymizeNames (sensitivePatterns.foldl (fun acc pr => reSub pr.1 pr.2 acc) content)

/-! ### Complexity classifier (`_assess_complexity`)

`word_count = len(content.split())`; `sentences = content.split('.')`
always has `count('.') + 1` parts, so the `if sentences else 0` guard in
the source never yields the 0 branch but is modelled faithfully.
Python's float division is modelled by exact division in `ℚ`. -/

/-- `len(content.split('.'))`. -/
def pySentenceCount (s : String) : Nat :=
  s.data.countP (fun c => c = '.') + 1

/-- The classifier body as a pure function of word and sentence counts. -/
def complexityOf (wordCount sentenceCount : Nat) : String :=
  let avg : ℚ := if sentenceCount = 0 then 0 else (wordCount : ℚ) / (sentenceCount : ℚ)
  if avg > 25 ∨ wordCount > 5000 then "high"
  else if avg > 15 ∨ wordCount > 2000 then "medium"
  else "low"

/-- `_assess_complexity`. -/
def assessComplexity (content : String) : String :=
  complexityOf (pyWordCount content) (pySentenceCount content)

/-! ### Data model records

Fields restricted to the ones the embedded operations read.  Python
`None` for `domains` is represented by the empty list (both are falsy
under the source's `if doc["domains"]:` guard). -/

/-- A stored `legal_documents` row as read by the metrics aggregator. -/
structure DocRec where
  language : String
  domains : List String
  deriving DecidableEq

/-- A stored `prompt_response_pairs` row as read by the metrics
aggregator and the exporter. -/
structure PairRec where
  prompt : String
  response : String
  pair_type : String
  quality_score : ℤ
  is_verified : Bool
  domain : String
  difficulty : String
  deriving DecidableEq

/-- The snapshot produced by `calculate_dataset_metrics`; the four
Python count dictionaries (absent key = 0) are total functions. -/
structure DMetrics where
  total_documents : Nat
  total_pairs : Nat
  verified_pairs : Nat
  type_distribution : String → Nat
  quality_distribution : String → Nat
  language_distribution : String → Nat
  domain_distribution : String → Nat
  average_prompt_length : ℚ
  average_response_length : ℚ
  average_quality_score : ℚ
  verification_rate : ℚ

/-- `calculate_dataset_metrics`: a pure function of the two
fully-materialized collections. -/
def calculateDatasetMetrics (docs : List DocRec) (pairs : List PairRec) : DMetrics :=
  let total_documents := docs.length
  let total_pairs := pairs.length
  let verified_pairs := (pairs.filter (fun p => p.is_verified)).length
  { total_documents := total_documents
    total_pairs := total_pairs
    verified_pairs := verified_pairs
    type_distribution := fun k => pairs.countP (fun p => p.pair_type == k)
    quality_distribution := fun k => pairs.countP (fun p => toString p.quality_score == k)
    language_distribution := fun k => docs.countP (fun d => d.language == k)
    domain_distribution := fun k => (docs.map (fun d => d.domains.count k)).sum
    average_prompt_length :=
      if total_pairs ≠ 0 then ((pairs.map (fun p => (p.prompt.length : ℚ))).sum) / (total_pairs : ℚ) else 0
    average_response_length :=
      if total_pairs ≠ 0 then ((pairs.map (fun p => (p.response.length : ℚ))).sum) / (total_pairs : ℚ) else 0
    average_quality_score :=
      if total_pairs ≠ 0 then
        ((((pairs.map (fun p => p.quality_score)).sum : ℤ) : ℚ)) / (total_pairs : ℚ)
      else 0
    verification_rate :=
      if total_pairs > 0 then ((verified_pairs : ℚ) / (total_pairs : ℚ)) * 100 else 0 }

/-! ### Dataset exporter (`export_dataset`)

The three filters are applied in sequence, each under Python
truthiness: a `None` or empty `pair_types` list and a zero
`min_quality` skip their filter.  NDJSON lines reproduce
`json.dumps` with default separators and `ensure_ascii=True`; CSV
reproduces `csv.writer` with the default dialect (minimal quoting,
doubled quote character, `\r\n` row terminator). -/

/-- One hexadecimal digit (lower case). -/
def hexDigit (n : Nat) : Char :=
  "0123456789abcdef".data.getD n '0'

/-- Four-digit lower-case hex of a code point, as in `\uXXXX`. -/
def hex4 (n : Nat) : String :=
  String.mk [hexDigit (n / 4096 % 16), hexDigit (n / 256 % 16), hexDigit (n / 16 % 16), hexDigit (n % 16)]

/-- `json.dumps` escaping of a single character (`ensure_ascii=True`). -/
def jsonEscapeChar (c : Char) : String :=
  if c = '"' then "\\\""
  else if c = '\\' then "\\\\"
  else if c = '\n' then "\\n"
  else if c = '\r' then "\\r"
  else if c = '\t' then "\\t"
  else if c = '\x08' then "\\b"
  else if c = '\x0c' then "\\f"
  else if c.toNat < 32 || c.toNat > 126 then "\\u" ++ hex4 c.toNat
  else String.mk [c]

/-- `json.dumps` of a string value. -/
def jsonStr (s : String) : String :=
  "\"" ++ String.join (s.data.map jsonEscapeChar) ++ "\""

/-- The NDJSON record built for one exported pair: the six fields in
the source's insertion order. -/
def jsonLine (p : PairRec) : String :=
  "\x7b\"prompt\": " ++ jsonStr p.prompt ++
  ", \"response\": " ++ jsonStr p.response ++
  ", \"type\": " ++ jsonStr p.pair_type ++
  ", \"quality\": " ++ toString p.quality_score ++
  ", \"domain\": " ++ jsonStr p.domain ++
  ", \"difficulty\": " ++ jsonStr p.difficulty ++ "\x7d"

/-- `csv.writer` field encoding: minimal quoting, quotes doubled. -/
def csvField (s : String) : String :=
  if s.data.any (fun c => c = ',' || c = '"' || c = '\n' || c = '\r') then
    "\"" ++ String.join (s.data.map (fun c => if c = '"' then "\"\"" else String.mk [c])) ++ "\""
  else s

/-- One CSV row, terminated `\r\n` as by `csv.writer`'s default dialect. -/
def csvRow (fields : List String) : String :=
  String.intercalate "," (fields.map csvField) ++ "\r\n"

/-- The sequential filters of `export_dataset`, with Python truthiness:
`if pair_types:` skips on `None` and on `[]`; `if min_quality:` skips
on `0`. -/
def exportFilter (pairs : List PairRec) (pair_types : Option (List String))
    (min_quality : ℤ) (verified_only : Bool) : List PairRec :=
  let f1 := match pair_types with
    | some (x :: xs) => pairs.filter (fun p => (x :: xs).contains p.pair_type)
    | _ => pairs
  let f2 := if min_quality ≠ 0 then f1.filter (fun p => min_quality ≤ p.quality_score) else f1
  let f3 := if verified_only then f2.filter (fun p => p.is_verified) else f2
  f3

/-- `export_dataset` (the store scan replaced by its result `pairs`). -/
def exportDataset (pairs : List PairRec) (format : String)
    (pair_types : Option (List String)) (min_quality : ℤ) (verified_only : Bool) :
    Except String String :=
  let fp := exportFilter pairs pair_types min_quality verified_only
  if format = "jsonl" then
    Except.ok (String.intercalate "\n" (fp.map jsonLine))
  else if format = "csv" then
    Except.ok (csvRow ["prompt", "response", "type", "quality", "domain", "difficulty"] ++
      String.join (fp.map (fun p =>
        csvRow [p.prompt, p.response, p.pair_type, toString p.quality_score, p.domain, p.difficulty])))
  else
    Except.error ("Unsupported format: " ++ format)

/-- The claim's reading of the export filter: one conjunctive predicate
(type in the inclusion list when provided, quality at least the
threshold, verified when requested).  Stated from the specification's
words, for comparison with `exportFilter`. -/
def claimFilterPred (pair_types : Option (List String)) (min_quality : ℤ)
    (verified_only : Bool) (p : PairRec) : Bool :=
  ((match pair_types with
    | some pts => pts.contains p.pair_type
    | none => true) &&
   decide (min_quality ≤ p.quality_score)) &&
  (!verified_only || p.is_verified)

/-! ### Pair synthesizer (`_generate_pairs_for_type`) -/

/-- A document as read by the synthesizer. -/
structure SynthDoc where
  content : String
  document_type : String
  deriving DecidableEq

/-- One generated prompt/response record. -/
structure PairData where
  prompt : String
  response : String
  quality_score : ℤ
  difficulty : String
  tags : List String
  deriving DecidableEq

/-- `_extract_sample_clauses`: double-newline paragraphs whose word
count is strictly between 10 and 100, stripped, at most five. -/
def extractSampleClauses (content : String) : List String :=
  (((pySplit "\n\n" content).filter
      (fun para => decide (10 < pyWordCount para) && decide (pyWordCount para < 100))).map
    pyStrip).take 5

/-- `_generate_pairs_for_type`. -/
def generatePairsForType (doc : SynthDoc) (pair_type : String) : List PairData :=
  if pair_type = "summarization" then
    [{ prompt := "Provide a comprehensive summary of this " ++ doc.document_type ++ ":\n\n" ++
         takeS 1000 doc.content ++ "..."
       response := "This " ++ doc.document_type ++ " outlines key legal provisions and obligations..."
       quality_score := 4
       difficulty := "medium"
       tags := ["summary", doc.document_type] },
     { prompt := "Give me a brief overview of this legal document:\n\n" ++ takeS 500 doc.content ++ "..."
       response := "Brief overview: This document establishes..."
       quality_score := 3
       difficulty := "easy"
       tags := ["overview", doc.document_type] }]
  else if pair_type = "clause_explanation" then
    ((extractSampleClauses doc.content).take 3).map (fun clause =>
      { prompt := "Explain this legal clause in simple terms:\n\n\"" ++ clause ++ "\""
        response := "This clause means that..."
        quality_score := 4
        difficulty := "medium"
        tags := ["clause_explanation", doc.document_type] })
  else if pair_type = "qa" then
    [{ prompt := "What is the main purpose of this " ++ doc.document_type ++ "?"
       response := "The main purpose of this " ++ doc.document_type ++ " is to..."
       quality_score := 4
       difficulty := "easy"
       tags := [] },
     { prompt := "What are the key obligations in this " ++ doc.document_type ++ "?"
       response := "The key obligations include..."
       quality_score := 4
       difficulty := "medium"
       tags := [] },
     { prompt := "What happens if someone violates this " ++ doc.document_type ++ "?"
       response := "If this agreement is violated..."
       quality_score := 3
       difficulty := "hard"
       tags := [] }]
  else []

/-- The claim's notion of a candidate paragraph: a double-newline
paragraph of length 10 to 99 words (inclusive).  Stated from the
claim's words, for comparison with the source's strict bound. -/
def claimCandidates (content : String) : List String :=
  (pySplit "\n\n" content).filter
    (fun para => decide (10 ≤ pyWordCount para) && decide (pyWordCount para ≤ 99))

/-! ### Fine-tuning job simulator, failure handlers, cancel endpoint

A `fine_tuning_jobs` row is reduced to the fields the embedded writes
touch.  Each record-store `update` of the source becomes a function
`FTJob → FTJob`; timestamp strings are irrelevant to every settled
property and passed in as parameters. -/

/-- A `fine_tuning_jobs` row. -/
structure FTJob where
  status : String
  progress : ℚ
  logs : String
  endTimeSet : Bool
  modelId : Option String
  deriving DecidableEq

/-- `training_stages` of `FineTuningService`. -/
def trainingStages : List String :=
  ["Preparing training data...",
   "Initializing model...",
   "Training epoch 1/3...",
   "Training epoch 2/3...",
   "Training epoch 3/3...",
   "Evaluating model performance...",
   "Running validation tests...",
   "Finalizing model..."]

/-- The loop body write of `_run_training_process` for stage `i`:
progress `(i / len(stages)) * 80`, the stage line appended to the
re-read logs. -/
def stageWrite (ts : String) (i : Nat) (stage : String) (j : FTJob) : FTJob :=
  { j with progress := ((i : ℚ) / (trainingStages.length : ℚ)) * 80
           logs := j.logs ++ ("\n" ++ ts ++ ": " ++ stage) }

/-- The write moving the job to the evaluation phase. -/
def evaluatingWrite (j : FTJob) : FTJob :=
  { j with status := "evaluating", progress := 80 }

/-- The completion write of `_run_training_process`. -/
def completedWrite (ts jobId : String) (j : FTJob) : FTJob :=
  { j with status := "completed", progress := 100, endTimeSet := true
           modelId := some ("legal-model-" ++ takeS 8 jobId)
           logs := j.logs ++ ("\n" ++ ts ++ ": Training completed successfully") }

/-- The `except` write of `_run_training_process`: status `failed`,
end time stamped, error appended to the re-read logs. -/
def trainFailWrite (ts err : String) (j : FTJob) : FTJob :=
  { j with status := "failed", endTimeSet := true
           logs := j.logs ++ ("\n" ++ ts ++ ": Training failed: " ++ err) }

/-- The `except` write of `start_training`: status `failed` and the
logs field *replaced* by `"Training failed: {e}"`; no end time. -/
def startTrainingFailWrite (err : String) (j : FTJob) : FTJob :=
  { j with status := "failed", logs := "Training failed: " ++ err }

/-- The cancelling write of `cancel_fine_tuning_job`. -/
def cancelWrite (admin ts : String) (j : FTJob) : FTJob :=
  { j with status := "failed", endTimeSet := true
           logs := j.logs ++ ("\nJob cancelled by admin " ++ admin ++ " at " ++ ts) }

/-- `cancel_fine_tuning_job`: 404 when the job is absent, 400 (and no
write) unless the status is `preparing` or `training`, otherwise the
cancelling write. -/
def cancelFineTuningJob (admin ts : String) (jobRow : Option FTJob) : Except String FTJob :=
  match jobRow with
  | none => Except.error "Fine-tuning job not found"
  | some j =>
    if j.status = "preparing" ∨ j.status = "training" then
      Except.ok (cancelWrite admin ts j)
    else
      Except.error "Job cannot be cancelled in current status"

/-- The write sequence of a fault-free `_run_training_process` run:
the eight stage writes, the evaluating write, the completion write. -/
def trainingProcessWrites (ts jobId : String) : List (FTJob → FTJob) :=
  (trainingStages.enum.map (fun p => stageWrite ts p.1 p.2)) ++
    [evaluatingWrite, completedWrite ts jobId]

/-- The state trace of applying a write sequence (initial state first). -/
def applyWrites (j : FTJob) (ws : List (FTJob → FTJob)) : List FTJob :=
  ws.scanl (fun s f => f s) j

/-- The interleaving in which the cancel request lands after the first
`k` writes of the (unaware, still-running) training task, which then
performs its remaining writes: the full observed state trace.  A
rejected cancel leaves the state unchanged. -/
def cancelRaceTrace (k : Nat) (admin ts jobId : String) (j0 : FTJob) : List FTJob :=
  let ws := trainingProcessWrites ts jobId
  let t1 := applyWrites j0 (ws.take k)
  let jc := t1.getLastD j0
  let j2 := match cancelFineTuningJob admin ts (some jc) with
    | Except.ok j2 => j2
    | Except.error _ => jc
  t1 ++ applyWrites j2 (ws.drop k)

/-- A job record as it stands right after `start_training`'s status
write, at the top of the simulated training loop. -/
def runningJob : FTJob :=
  { status := "training", progress := 0, logs := "", endTimeSet := false, modelId := none }

/-! ### Model evaluation (`_evaluate_model`)

`hash(job_id)` is CPython's salted string hash: deterministic within
one process.  It is embedded as an explicit function parameter
`hashF : String → ℤ`; `%` is Python's nonnegative-remainder `%`,
which is `Int.emod` for the positive modulus 20. -/

/-- The `training_metrics` row (scores as exact rationals). -/
structure TMetrics where
  job_id : String
  accuracy : ℚ
  relevance : ℚ
  readability : ℚ
  coherence : ℚ
  legal_accuracy : ℚ
  simplification_score : ℚ
  clause_explanation_score : ℚ
  qa_score : ℚ
  overall_score : ℚ
  training_loss : ℚ
  validation_loss : ℚ
  learning_rate : ℚ
  deriving DecidableEq

/-- The metrics record built by `_evaluate_model` from the hash value
of the job id. -/
def evaluateMetrics (hashVal : ℤ) (jobId : String) : TMetrics :=
  let base : ℚ := 0.75 + ((hashVal % 20 : ℤ) : ℚ) / 100
  { job_id := jobId
    accuracy := min 0.95 (base + 0.05)
    relevance := min 0.95 (base + 0.03)
    readability := min 0.95 (base + 0.08)
    coherence := min 0.95 (base + 0.02)
    legal_accuracy := min 0.95 (base + 0.01)
    simplification_score := min 0.95 (base + 0.06)
    clause_explanation_score := min 0.95 (base + 0.04)
    qa_score := min 0.95 (base + 0.07)
    overall_score := base
    training_loss := 0.15
    validation_loss := 0.18
    learning_rate := 0.001 }

/-- `_evaluate_model` for a given in-process string hash function. -/
def evaluateModel (hashF : String → ℤ) (jobId : String) : TMetrics :=
  evaluateMetrics (hashF jobId) jobId

/-! ### Shared auxiliary notions and concrete sample records -/

/-- `a` is a prefix of `b` (log fields are append-only when every write
maps `logs` to something with the old `logs` as a prefix). -/
def StrPrefix (a b : String) : Prop :=
  ∃ c, b = a ++ c

/-- A sample stored pair: type `qa`, quality 3, unverified. -/
def qaPairEx : PairRec :=
  { prompt := "p", response := "r", pair_type := "qa", quality_score := 3,
    is_verified := false, domain := "general", difficulty := "easy" }

/-- A sample stored pair with a given quality score. -/
def pairWithQuality (q : ℤ) : PairRec :=
  { prompt := "p", response := "r", pair_type := "qa", quality_score := q,
    is_verified := false, domain := "general", difficulty := "easy" }

/-- A document whose whole content is a single ten-word paragraph. -/
def tenWordDoc : SynthDoc :=
  { content := "w w w w w w w w w w", document_type := "contract" }

/-- A job in the `evaluating` phase. -/
def evaluatingJob : FTJob :=
  { status := "evaluating", progress := 80, logs := "", endTimeSet := false, modelId := none }

/-- A job with a non-empty log, about to be started. -/
def preparingJobWithLogs : FTJob :=
  { status := "preparing", progress := 0, logs := "line1", endTimeSet := false, modelId := none }

/-! ## Theorems -/

/-- C2.  Complexity classification is a pure, deterministic function of
word count and sentence count (the sentence list of `split('.')` is
never empty, so the zero-denominator branch is unreachable), with the
thresholds `high` for average sentence length above 25 or word count
above 5000, else `medium` for average above 15 or word count above
2000, else `low`; in particular 6000 words in 10 sentences is `high`,
1000 words in 50 sentences is `medium`, and 100 words in 20 sentences
is `low`. -/
theorem assess_complexity_c2 :
    (∀ content : String,
      1 ≤ pySentenceCount content ∧
      assessComplexity content = complexityOf (pyWordCount content) (pySentenceCount content)) ∧
    complexityOf 6000 10 = "high" ∧
    complexityOf 1000 50 = "medium" ∧
    complexityOf 100 20 = "low" := by
  refine ⟨fun content => ⟨Nat.le_add_left 1 _, rfl⟩, ?_, ?_, ?_⟩ <;>
    norm_num [complexityOf]

/-- C5 amendment.  Every record write performed by the simulated
training task (`_run_training_process`), including its exception
handler, and by the cancel endpoint preserves the previous log content
as a prefix; the task's exception write moves the job to `failed`,
stamps the end time and appends the error text.  The synchronous
`start_training` exception handler, by contrast, replaces the logs
field with `"Training failed: {e}"` and stamps no end time. -/
theorem training_failure_c5_amended
    (j : FTJob) (ts err stage jobId admin : String) (i : Nat) :
    (trainFailWrite ts err j).status = "failed" ∧
    (trainFailWrite ts err j).endTimeSet = true ∧
    (trainFailWrite ts err j).logs = j.logs ++ ("\n" ++ ts ++ ": Training failed: " ++ err) ∧
    StrPrefix j.logs (trainFailWrite ts err j).logs ∧
    StrPrefix j.logs (stageWrite ts i stage j).logs ∧
    (evaluatingWrite j).logs = j.logs ∧
    StrPrefix j.logs (completedWrite ts jobId j).logs ∧
    StrPrefix j.logs (cancelWrite admin ts j).logs ∧
    (startTrainingFailWrite err j).status = "failed" ∧
    (startTrainingFailWrite err j).logs = "Training failed: " ++ err ∧
    (startTrainingFailWrite err j).endTimeSet = j.endTimeSet :=
  ⟨rfl, rfl, rfl, ⟨_, rfl⟩, ⟨_, rfl⟩, rfl, ⟨_, rfl⟩, ⟨_, rfl⟩, rfl, rfl, rfl⟩

/-- C5 counterexample.  An exception raised in `start_training` on a
job whose logs are `"line1"` produces a `failed` job whose logs no
longer contain the previous content and whose end time is not stamped:
the claim's "end time is stamped and the error text is appended to the
existing log text ... logs are append-only, never truncated" is false
for this write. -/
theorem start_training_logs_c5_counterexample :
    (startTrainingFailWrite "Job j1 not found" preparingJobWithLogs).status = "failed" ∧
    (startTrainingFailWrite "Job j1 not found" preparingJobWithLogs).logs =
      "Training failed: Job j1 not found" ∧
    occursInS "line1" (startTrainingFailWrite "Job j1 not found" preparingJobWithLogs).logs = false ∧
    (startTrainingFailWrite "Job j1 not found" preparingJobWithLogs).endTimeSet = false := by
  refine ⟨rfl, rfl, ?_, rfl⟩
  decide

/-- C6.  The cancel endpoint succeeds exactly when the job exists and
its status is `preparing` or `training`; a missing job and a job in
any other status produce an error (and, the write being issued only on
the success path, leave the record unchanged); a successful cancel
moves the job to `failed`, stamps the end time and appends to the
logs. -/
theorem cancel_endpoint_c6 (admin ts : String) (j : FTJob) :
    ((∃ j2, cancelFineTuningJob admin ts (some j) = Except.ok j2) ↔
      (j.status = "preparing" ∨ j.status = "training")) ∧
    (cancelFineTuningJob admin ts none = Except.error "Fine-tuning job not found") ∧
    (¬(j.status = "preparing" ∨ j.status = "training") →
      cancelFineTuningJob admin ts (some j) =
        Except.error "Job cannot be cancelled in current status") ∧
    (∀ j2, cancelFineTuningJob admin ts (some j) = Except.ok j2 →
      j2.status = "failed" ∧ j2.endTimeSet = true ∧ StrPrefix j.logs j2.logs) := by
  by_cases h : j.status = "preparing" ∨ j.status = "training"
  · refine ⟨⟨fun _ => h, fun _ => ⟨cancelWrite admin ts j, by simp [cancelFineTuningJob, h]⟩⟩,
      rfl, fun hn => absurd h hn, fun j2 hj2 => ?_⟩
    simp only [cancelFineTuningJob, if_pos h, Except.ok.injEq] at hj2
    subst hj2
    exact ⟨rfl, rfl, ⟨_, rfl⟩⟩
  · refine ⟨⟨fun ⟨j2, hj2⟩ => ?_, fun hh => absurd hh h⟩,
      rfl, fun _ => by simp [cancelFineTuningJob, if_neg h], fun j2 hj2 => ?_⟩
    · simp [cancelFineTuningJob, if_neg h] at hj2
    · simp [cancelFineTuningJob, if_neg h] at hj2

/-- C6 witness: a `training` job is cancellable; an `evaluating` job is
rejected with the endpoint's 400 message. -/
theorem cancel_endpoint_c6_witness :
    (∃ j2, cancelFineTuningJob "root" "t0" (some runningJob) = Except.ok j2) ∧
    cancelFineTuningJob "root" "t0" (some evaluatingJob) =
      Except.error "Job cannot be cancelled in current status" :=
  ⟨(cancel_endpoint_c6 "root" "t0" runningJob).1.mpr (Or.inr rfl),
   (cancel_endpoint_c6 "root" "t0" evaluatingJob).2.2.1 (by decide)⟩

/-- C7.  The metrics record written by `_evaluate_model` depends only
on the (in-process) hash value of the job id — equal hash values give
identical records, so two evaluations of the same job id in one
process coincide — and each of the nine scores is at most 0.95 (the
eight clipped scores by the `min`, the overall score because the base
score is at most 0.75 + 19/100). -/
theorem evaluate_model_c7 :
    (∀ (h1 h2 : String → ℤ) (jid : String), h1 jid = h2 jid →
      evaluateModel h1 jid = evaluateModel h2 jid) ∧
    (∀ (hv : ℤ) (jid : String),
      (evaluateMetrics hv jid).accuracy ≤ 0.95 ∧
      (evaluateMetrics hv jid).relevance ≤ 0.95 ∧
      (evaluateMetrics hv jid).readability ≤ 0.95 ∧
      (evaluateMetrics hv jid).coherence ≤ 0.95 ∧
      (evaluateMetrics hv jid).legal_accuracy ≤ 0.95 ∧
      (evaluateMetrics hv jid).simplification_score ≤ 0.95 ∧
      (evaluateMetrics hv jid).clause_explanation_score ≤ 0.95 ∧
      (evaluateMetrics hv jid).qa_score ≤ 0.95 ∧
      (evaluateMetrics hv jid).overall_score ≤ 0.95) := by
  constructor
  · intro h1 h2 jid he
    unfold evaluateModel
    rw [he]
  · intro hv jid
    have h0 : (0 : ℤ) ≤ hv % 20 := Int.emod_nonneg hv (by norm_num)
    have h19 : hv % 20 ≤ 19 := by
      have := Int.emod_lt_of_pos hv (show (0 : ℤ) < 20 by norm_num)
      omega
    have hq : ((hv % 20 : ℤ) : ℚ) ≤ 19 := by exact_mod_cast h19
    have hb : (0.75 : ℚ) + ((hv % 20 : ℤ) : ℚ) / 100 ≤ 0.95 := by
      nlinarith [hq]
    refine ⟨min_le_left _ _, min_le_left _ _, min_le_left _ _, min_le_left _ _,
      min_le_left _ _, min_le_left _ _, min_le_left _ _, min_le_left _ _, ?_⟩
    simpa [evaluateMetrics] using hb

/-- C7 witness: at hash value 7 the two evaluations coincide and the
overall score is within the bound. -/
theorem evaluate_model_c7_witness :
    evaluateModel (fun _ => 7) "job-1" = evaluateModel (fun _ => 7) "job-1" ∧
    (evaluateMetrics 7 "job-1").overall_score ≤ 0.95 :=
  ⟨evaluate_model_c7.1 (fun _ => 7) (fun _ => 7) "job-1" rfl,
   (evaluate_model_c7.2 7 "job-1").2.2.2.2.2.2.2.2⟩

/-- C9 amendment.  For every document the synthesizer emits exactly two
`summarization` pairs, exactly three `qa` pairs, and one
`clause_explanation` pair per candidate paragraph for at most the first
three candidates, where a candidate paragraph is a double-newline
paragraph of strictly more than 10 and strictly fewer than 100 words
(11 to 99, not 10 to 99). -/
theorem generate_pairs_c9_amended (doc : SynthDoc) :
    (generatePairsForType doc "summarization").length = 2 ∧
    (generatePairsForType doc "qa").length = 3 ∧
    (generatePairsForType doc "clause_explanation").length =
      min 3 ((pySplit "\n\n" doc.content).filter
        (fun para => decide (10 < pyWordCount para) && decide (pyWordCount para < 100))).length := by
  refine ⟨rfl, rfl, ?_⟩
  have h1 : generatePairsForType doc "clause_explanation" =
      ((extractSampleClauses doc.content).take 3).map (fun clause =>
        { prompt := "Explain this legal clause in simple terms:\n\n\"" ++ clause ++ "\""
          response := "This clause means that..."
          quality_score := 4
          difficulty := "medium"
          tags := ["clause_explanation", doc.document_type] }) := rfl
  rw [h1, List.length_map, List.length_take]
  unfold extractSampleClauses
  rw [List.length_take, List.length_map]
  omega

/-- C9 counterexample.  A document that is a single ten-word paragraph
has one candidate paragraph under the claim's inclusive 10-to-99-word
range, yet the synthesizer generates no `clause_explanation` pair for
it, because the source requires strictly more than ten words. -/
theorem clause_candidates_c9_counterexample :
    (claimCandidates tenWordDoc.content).length = 1 ∧
    pyWordCount tenWordDoc.content = 10 ∧
    generatePairsForType tenWordDoc "clause_explanation" = [] := by
  refine ⟨?_, ?_, ?_⟩ <;> decide

/-- The average-quality field of the metrics snapshot, unfolded. -/
theorem calcMetrics_avg_quality (docs : List DocRec) (ps : List PairRec) :
    (calculateDatasetMetrics docs ps).average_quality_score =
      if ps.length ≠ 0 then
        ((((ps.map (fun p => p.quality_score)).sum : ℤ) : ℚ)) / (ps.length : ℚ)
      else 0 := rfl

/-- The verification-rate field of the metrics snapshot, unfolded. -/
theorem calcMetrics_vrate (docs : List DocRec) (ps : List PairRec) :
    (calculateDatasetMetrics docs ps).verification_rate =
      if ps.length > 0 then
        (((ps.filter (fun p => p.is_verified)).length : ℚ) / (ps.length : ℚ)) * 100
      else 0 := rfl

/-- The quality-distribution field of the metrics snapshot, unfolded. -/
theorem calcMetrics_qdist (docs : List DocRec) (ps : List PairRec) :
    (calculateDatasetMetrics docs ps).quality_distribution =
      fun k => ps.countP (fun p => toString p.quality_score == k) := rfl

/-- C3.  The metrics aggregator returns verification rate 0 and average
quality 0 on an empty pair collection (no division by zero), and on any
four pairs with quality scores 1, 3, 3, 5 it returns average quality 3
and the quality distribution keyed by the scores' string forms, with
count 1 at "1", 2 at "3", 1 at "5" and 0 elsewhere. -/
theorem dataset_metrics_c3 :
    (∀ docs : List DocRec,
      (calculateDatasetMetrics docs []).verification_rate = 0 ∧
      (calculateDatasetMetrics docs []).average_quality_score = 0) ∧
    (∀ (docs : List DocRec) (ps : List PairRec),
      ps.map (fun p => p.quality_score) = [1, 3, 3, 5] →
      (calculateDatasetMetrics docs ps).average_quality_score = 3 ∧
      (calculateDatasetMetrics docs ps).quality_distribution =
        fun k => if k = "1" then 1 else if k = "3" then 2 else if k = "5" then 1 else 0) := by
  constructor
  · intro docs
    rw [calcMetrics_vrate, calcMetrics_avg_quality]
    simp
  · intro docs ps h
    have hlen : ps.length = 4 := by
      have := congrArg List.length h
      simpa using this
    constructor
    · have hsum : (ps.map (fun p => p.quality_score)).sum = 12 := by rw [h]; rfl
      rw [calcMetrics_avg_quality, hlen, hsum, if_pos (by norm_num)]
      norm_num
    · rw [calcMetrics_qdist]
      funext k
      have hcomp : (fun p : PairRec => toString p.quality_score == k) =
          ((fun q : ℤ => toString q == k) ∘ (fun p : PairRec => p.quality_score)) := rfl
      rw [hcomp, ← List.countP_map, h]
      have e1 : toString (1 : ℤ) = "1" := rfl
      have e3 : toString (3 : ℤ) = "3" := rfl
      have e5 : toString (5 : ℤ) = "5" := rfl
      by_cases h1 : k = "1"
      · subst h1; decide
      · by_cases h3 : k = "3"
        · subst h3; decide
        · by_cases h5 : k = "5"
          · subst h5; decide
          · simp [List.countP_cons, List.countP_nil, e1, e3, e5, beq_iff_eq,
              h1, h3, h5, Ne.symm h1, Ne.symm h3, Ne.symm h5]

/-- C3 witness: the concrete four-pair collection with scores 1, 3, 3, 5. -/
theorem dataset_metrics_c3_witness :
    (calculateDatasetMetrics []
        [pairWithQuality 1, pairWithQuality 3, pairWithQuality 3, pairWithQuality 5]).average_quality_score = 3 ∧
    (calculateDatasetMetrics []
        [pairWithQuality 1, pairWithQuality 3, pairWithQuality 3, pairWithQuality 5]).quality_distribution "3" = 2 := by
  have h := dataset_metrics_c3.2 []
    [pairWithQuality 1, pairWithQuality 3, pairWithQuality 3, pairWithQuality 5] rfl
  exact ⟨h.1, by rw [h.2]; norm_num; decide⟩

/-- C4 (violated by the code; flagged in the specification itself as a
lost race).  In the interleaving where the cancel request lands while
the still-running simulator sleeps after its eight stage writes, the
stored job is observed `failed` (terminal) and afterwards receives
further status and progress writes, ending `completed`: the job
observes two terminal states.  The second conjunct shows the violating
writes directly: the evaluating and completion writes update status
and progress unconditionally, even on a job already `failed`. -/
theorem cancel_race_c4_codebug :
    ((cancelRaceTrace 8 "root" "t0" "job-12345678" runningJob).map (fun j => j.status)) =
      ["training", "training", "training", "training", "training", "training", "training",
       "training", "training", "failed", "evaluating", "completed"] ∧
    (∀ j : FTJob, (cancelWrite "root" "t0" j).status = "failed" ∧
      (evaluatingWrite (cancelWrite "root" "t0" j)).status = "evaluating" ∧
      (evaluatingWrite (cancelWrite "root" "t0" j)).progress = 80 ∧
      (completedWrite "t0" "job-12345678" (evaluatingWrite (cancelWrite "root" "t0" j))).status =
        "completed") := by
  exact ⟨by decide, fun j => ⟨rfl, rfl, rfl, rfl⟩⟩

/-- C8 amendment.  With the Python-truthiness provisos the
counterexample forces — the pair-type inclusion list filters only when
non-empty, the minimum-quality threshold only when nonzero — the
exporter outputs exactly the pairs satisfying the conjunction of the
three filters, as newline-delimited JSON records with the six fields
in order prompt, response, type, quality, domain, difficulty, or as
CSV with the fixed six-column header in that order. -/
theorem export_dataset_c8_amended (pairs : List PairRec) (pts : Option (List String))
    (mq : ℤ) (vo : Bool) (hmq : mq ≠ 0) (hpts : pts ≠ some []) :
    exportFilter pairs pts mq vo = pairs.filter (claimFilterPred pts mq vo) ∧
    exportDataset pairs "jsonl" pts mq vo =
      Except.ok (String.intercalate "\n" ((pairs.filter (claimFilterPred pts mq vo)).map jsonLine)) ∧
    exportDataset pairs "csv" pts mq vo =
      Except.ok (csvRow ["prompt", "response", "type", "quality", "domain", "difficulty"] ++
        String.join ((pairs.filter (claimFilterPred pts mq vo)).map (fun p =>
          csvRow [p.prompt, p.response, p.pair_type, toString p.quality_score, p.domain,
            p.difficulty]))) := by
  have hfilter : exportFilter pairs pts mq vo = pairs.filter (claimFilterPred pts mq vo) := by
    rcases pts with _ | pts
    · cases vo
      · simp only [exportFilter, if_pos hmq, Bool.false_eq_true, if_false]
        apply List.filter_congr
        intro x _
        simp [claimFilterPred]
      · simp only [exportFilter, if_pos hmq, if_true]
        rw [List.filter_filter]
        apply List.filter_congr
        intro x _
        cases hB : decide (mq ≤ x.quality_score) <;> cases hV : x.is_verified <;>
          simp [claimFilterPred, hB, hV]
    · rcases pts with _ | ⟨x, xs⟩
      · exact absurd rfl hpts
      · cases vo
        · simp only [exportFilter, if_pos hmq, Bool.false_eq_true, if_false]
          rw [List.filter_filter]
          apply List.filter_congr
          intro p _
          by_cases hA : p.pair_type ∈ (x :: xs) <;>
            cases hB : decide (mq ≤ p.quality_score) <;>
            simp [claimFilterPred, hA, hB]
        · simp only [exportFilter, if_pos hmq, if_true]
          rw [List.filter_filter, List.filter_filter]
          apply List.filter_congr
          intro p _
          by_cases hA : p.pair_type ∈ (x :: xs) <;>
            cases hB : decide (mq ≤ p.quality_score) <;>
            cases hV : p.is_verified <;>
            simp [claimFilterPred, hA, hB, hV]
  refine ⟨hfilter, ?_, ?_⟩
  · simp [exportDataset, hfilter]
  · simp [exportDataset, hfilter]

/-- C8 witness: for one stored `qa` pair with no inclusion list,
threshold 3 and no verified-only flag, the sequential filters agree
with the single conjunctive filter. -/
theorem export_dataset_c8_witness :
    exportFilter [qaPairEx] none 3 false = [qaPairEx].filter (claimFilterPred none 3 false) :=
  (export_dataset_c8_amended [qaPairEx] none 3 false (by decide) (by decide)).1

/-- C8 counterexample.  With an *empty* inclusion list provided, the
source skips the type filter entirely (`if pair_types:` is false for
`[]`), so the export contains a pair whose type is in no inclusion
list, while the claim's conjunction ("pair type in the given inclusion
list") excludes every pair: the claim as stated is false for this
filter combination. -/
theorem export_filter_c8_counterexample :
    exportFilter [qaPairEx] (some []) 3 false = [qaPairEx] ∧
    [qaPairEx].filter (claimFilterPred (some []) 3 false) = [] ∧
    exportDataset [qaPairEx] "jsonl" (some []) 3 false = Except.ok (jsonLine qaPairEx) ∧
    jsonLine qaPairEx ≠ "" := by
  refine ⟨by decide, by decide, rfl, by decide⟩

/-- C1 amendment.  On texts whose only pattern occurrence is a single
well-formed SSN, email, phone or dollar amount not overlapped by an
earlier-applied pattern, the redaction output contains the
corresponding fixed token and zero occurrences of the matched
substring.  (In general — see the counterexample — the matched
substring may survive embedded in a longer word-character run, and an
earlier pattern may consume a later pattern's match.) -/
theorem anonymize_redaction_c1_amended :
    (anonymizeContent "123-45-6789" = "[SSN_REDACTED]" ∧
      occursInS "123-45-6789" (anonymizeContent "123-45-6789") = false) ∧
    (anonymizeContent "john.doe@example.com" = "[EMAIL_REDACTED]" ∧
      occursInS "john.doe@example.com" (anonymizeContent "john.doe@example.com") = false) ∧
    (anonymizeContent "Call 555-123-4567 now" = "Call [PHONE_REDACTED] now" ∧
      occursInS "555-123-4567" (anonymizeContent "Call 555-123-4567 now") = false ∧
      occursInS "[PHONE_REDACTED]" (anonymizeContent "Call 555-123-4567 now") = true) ∧
    (anonymizeContent "$1,250.00" = "[AMOUNT_REDACTED]" ∧
      occursInS "$1,250.00" (anonymizeContent "$1,250.00") = false) := by
  refine ⟨⟨?_, ?_⟩, ⟨?_, ?_⟩, ⟨?_, ?_, ?_⟩, ⟨?_, ?_⟩⟩ <;> decide

/-- C1 counterexample.  Two failures of the claim as stated.  First,
`"123-45-6789 and 9123-45-67891"` contains the well-formed SSN
`123-45-6789`; the output contains the token but also still contains
the matched substring (embedded in `9123-45-67891`, where no word
boundary lets the pattern match), so "zero occurrences of the matched
original substring" is false.  Second, `"$123-456-7890"` contains the
well-formed dollar amount `$123` (the amount pattern matches at its
start), yet the earlier-applied phone pattern consumes the digits and
the output contains no `[AMOUNT_REDACTED]` token. -/
theorem anonymize_redaction_c1_counterexample :
    (occursInS "123-45-6789" "123-45-6789 and 9123-45-67891" = true ∧
      anonymizeContent "123-45-6789 and 9123-45-67891" = "[SSN_REDACTED] and 9123-45-67891" ∧
      occursInS "123-45-6789" (anonymizeContent "123-45-6789 and 9123-45-67891") = true) ∧
    (tryMatch amountPat none ("$123-456-7890".data) = some ("-456-7890".data) ∧
      anonymizeContent "$123-456-7890" = "$[PHONE_REDACTED]" ∧
      occursInS "[AMOUNT_REDACTED]" (anonymizeContent "$123-456-7890") = false) := by
  refine ⟨⟨?_, ?_, ?_⟩, ⟨?_, ?_, ?_⟩⟩ <;> decide

/-- C10 amendment.  No redaction token matches any sensitive or name
pattern — each of the six tokens is a fixed point of the full redaction
pipeline — but the pipeline is nevertheless not idempotent: a
replacement made by a later-applied pattern can expose a fresh match
for an earlier-applied pattern on a second pass. -/
theorem anonymize_tokens_c10_amended :
    anonymizeContent "[SSN_REDACTED]" = "[SSN_REDACTED]" ∧
    anonymizeContent "[EMAIL_REDACTED]" = "[EMAIL_REDACTED]" ∧
    anonymizeContent "[PHONE_REDACTED]" = "[PHONE_REDACTED]" ∧
    anonymizeContent "[ADDRESS_REDACTED]" = "[ADDRESS_REDACTED]" ∧
    anonymizeContent "[AMOUNT_REDACTED]" = "[AMOUNT_REDACTED]" ∧
    anonymizeContent "[NAME_REDACTED]" = "[NAME_REDACTED]" := by
  refine ⟨?_, ?_, ?_, ?_, ?_, ?_⟩ <;> decide

/-- C10 counterexample.  On `"$1.23555-123-4567"` the amount pattern
(applied after the phone pattern) replaces `$1.23`, newly exposing the
word-boundary-delimited phone number `555-123-4567`; a second run of
the pipeline then redacts it, so applying the pipeline twice differs
from applying it once. -/
theorem anonymize_idempotent_c10_counterexample :
    anonymizeContent "$1.23555-123-4567" = "[AMOUNT_REDACTED]555-123-4567" ∧
    anonymizeContent (anonymizeContent "$1.23555-123-4567") = "[AMOUNT_REDACTED][PHONE_REDACTED]" ∧
    anonymizeContent (anonymizeContent "$1.23555-123-4567") ≠ anonymizeContent "$1.23555-123-4567" := by
  refine ⟨?_, ?_, ?_⟩ <;> decide

end LawSpark
